import Mathlib

/-!
Shallow embedding of `pysyquantis/core.py` (class `QuantisGenerator`).

The Python code is synchronous and effectful: it touches the filesystem
(placeholder files in test mode, a `.write_test` probe marker during
validation) and spawns one external process per generation call.  We model
this with explicit state passing:

* `FS` is an abstract filesystem keyed by *normalized* POSIX path strings
  (the code goes through `pathlib.Path`, so we embed the relevant part of
  `PurePosixPath` normalization: drop empty and `"."` components, keep a
  root prefix).  Fallible primitive operations (`touch`, `unlink`) are
  modelled by per-path failure flags in the state.
* `ProcOutcome` is the environment's answer to `subprocess.run`: either the
  spawn itself fails (Python `FileNotFoundError`) or the process finishes
  with a return code and captured stderr.
* Each operation returns `Option QError × FS × List Effect`: the raised
  exception (if any), the resulting filesystem, and the trace of external
  effects (file creation/removal attempts and process spawns), in order.
-/

set_option autoImplicit false

namespace PySyQuantis

/-! ### POSIX path normalization (the fragment of `pathlib` used by the code) -/

/-- Split a character list at `/` (the behavior of `s.split("/")`:
`"a/b" ↦ ["a","b"]`, `"/a" ↦ ["","a"]`, `"" ↦ [""]`). -/
def splitSlashAux : List Char → List Char → List String
  | [], acc => [String.mk acc.reverse]
  | c :: rest, acc =>
    if c = '/' then String.mk acc.reverse :: splitSlashAux rest []
    else splitSlashAux rest (c :: acc)

def splitSlash (s : String) : List String := splitSlashAux s.data []

/-- Join strings with a separator (the behavior of `sep.join(ss)`). -/
def joinSep (sep : String) : List String → String
  | [] => ""
  | [x] => x
  | x :: y :: xs => x ++ sep ++ joinSep sep (y :: xs)

/-- The root prefix kept by `PurePosixPath`: `"//"` for exactly two leading
slashes, `"/"` for one or three-or-more, `""` for relative paths. -/
def posixRoot (s : String) : String :=
  match s.data with
  | '/' :: '/' :: '/' :: _ => "/"
  | '/' :: '/' :: _ => "//"
  | '/' :: _ => "/"
  | _ => ""

/-- Path components after normalization: split on `/`, dropping empty and
`"."` components (as `PurePosixPath` does). -/
def posixParts (s : String) : List String :=
  (splitSlash s).filter (fun c => c != "" && c != ".")

/-- `str()` of a `PurePosixPath` with the given root and parts. -/
def renderPath (root : String) (parts : List String) : String :=
  if parts.isEmpty then (if root = "" then "." else root)
  else root ++ joinSep "/" parts

/-- `str(Path(s))` for a POSIX path string `s`. -/
def pathStr (s : String) : String :=
  renderPath (posixRoot s) (posixParts s)

/-- `str(Path(s).parent)`: drop the last component (the parent of a rootless
or partless path is itself / `"."`). -/
def parentStr (s : String) : String :=
  renderPath (posixRoot s) (posixParts s).dropLast

/-- `str(Path(s).parent / ".write_test")`: the probe marker path used by
`_validate_inputs`. -/
def markerStr (s : String) : String :=
  renderPath (posixRoot s) ((posixParts s).dropLast ++ [".write_test"])

/-! ### Filesystem state -/

/-- Abstract filesystem, keyed by normalized path strings.  `touchFails p`
(resp. `unlinkFails p`) makes `Path(p).touch()` (resp. `.unlink()`) raise an
`OSError`/`PermissionError`, modelling denied permissions and other
filesystem failures. -/
structure FS where
  files : String → Option String
  dirs : String → Bool
  touchFails : String → Bool
  unlinkFails : String → Bool

def FS.isFile (fs : FS) (p : String) : Bool := (fs.files p).isSome

def FS.isDir (fs : FS) (p : String) : Bool := fs.dirs p

/-- `Path(p).exists()` / `os.path.exists(p)`. -/
def FS.pathExists (fs : FS) (p : String) : Bool := fs.isFile p || fs.isDir p

/-- `open(p, "w")` followed by a write: creates or overwrites the file. -/
def FS.writeFile (fs : FS) (p : String) (content : String) : FS :=
  { fs with files := fun q => if q = p then some content else fs.files q }

/-- `Path(p).touch()`: creates an empty file if absent, keeps content if
present. -/
def FS.touchFile (fs : FS) (p : String) : FS :=
  { fs with files := fun q => if q = p then some ((fs.files p).getD "") else fs.files q }

/-- `Path(p).unlink()`. -/
def FS.removeFile (fs : FS) (p : String) : FS :=
  { fs with files := fun q => if q = p then none else fs.files q }

/-! ### Effects, errors, process outcomes -/

/-- Externally visible effects, in program order.  `touch`/`unlink` are the
probe-marker operations of `_validate_inputs`; `fileWrite` is a test-mode
placeholder write (recorded with the raw path handed to `open`); `spawn` is
an attempted `subprocess.run` with the full command vector. -/
inductive Effect where
  | touch (path : String)
  | unlink (path : String)
  | fileWrite (path : String)
  | spawn (cmd : List String)
  deriving DecidableEq, Repr

/-- The exception taxonomy of `pysyquantis.exceptions` (the three refinements
of `QuantisError` that the core raises). -/
inductive QError where
  | validation (msg : String)
  | notFound (msg : String)
  | execution (msg : String)
  deriving DecidableEq, Repr

/-- Outcome of `subprocess.run(cmd, ...)`: the spawn raises
`FileNotFoundError`, or the process finishes with a return code and captured
stderr text. -/
inductive ProcOutcome where
  | spawnFail
  | finished (returncode : Int) (stderr : String)
  deriving DecidableEq, Repr

/-- Generator configuration (`QuantisGenerator.__init__`). -/
structure Generator where
  usbDeviceIndex : Int
  easyquantisPath : String
  testMode : Bool

/-! ### `_validate_inputs` -/

/-- The sentinel test of `_validate_inputs` (line 157): `str(path)` compared
against `"/dev/null"` and `"nul"` — i.e. on the *normalized* path. -/
def isNullSentinel (s : String) : Bool :=
  decide (pathStr s = "/dev/null") || decide (pathStr s = "nul")

/-- The sentinel test of the test-mode loop in `_execute_command` (line 41):
the *raw* argument string compared against `"/dev/null"` and `"nul"`. -/
def isRawNullSentinel (s : String) : Bool :=
  decide (s = "/dev/null") || decide (s = "nul")

/-- `QuantisGenerator._validate_inputs(count, output_path)`.
Returns the raised error (if any), the filesystem after the call, and the
trace of marker-file operations that succeeded. -/
def validateInputs (fs : FS) (count : Int) (output_path : String) :
    Option QError × FS × List Effect :=
  if count ≤ 0 then
    (some (.validation "Count must be positive"), fs, [])
  else
    -- Skip validation for special paths like /dev/null
    if isNullSentinel output_path then
      (none, fs, [])
    else
      -- Check if path is a directory
      if fs.pathExists (pathStr output_path) && fs.isDir (pathStr output_path) then
        (some (.validation ("Output path is a directory: " ++ output_path ++
          ". Please specify a filename.")), fs, [])
      else
        -- Check if parent directory exists and is writable
        if !(fs.pathExists (parentStr output_path)) then
          (some (.validation ("Directory does not exist: " ++ parentStr output_path)), fs, [])
        else if !(fs.isDir (parentStr output_path)) then
          (some (.validation ("Parent path is not a directory: " ++ parentStr output_path)), fs, [])
        else
          -- Check write permissions (basic check): touch then unlink a marker
          if fs.touchFails (markerStr output_path) then
            (some (.validation ("No write permission for directory: " ++ parentStr output_path)), fs, [])
          else
            if (fs.touchFile (markerStr output_path)).unlinkFails (markerStr output_path) then
              (some (.validation ("No write permission for directory: " ++ parentStr output_path)),
                fs.touchFile (markerStr output_path), [.touch (markerStr output_path)])
            else
              (none, (fs.touchFile (markerStr output_path)).removeFile (markerStr output_path),
                [.touch (markerStr output_path), .unlink (markerStr output_path)])

/-! ### `_execute_command` -/

/-- The raw output paths the test-mode loop writes to, in order: every
argument following a `-b`/`-i`/`-f` flag, unless the *raw* string is
`"/dev/null"` or `"nul"` (the loop in `_execute_command`, lines 38-43). -/
def testWritePaths : List String → List String
  | a :: b :: rest =>
    if (a = "-b" || a = "-i" || a = "-f") && !(isRawNullSentinel b) then
      b :: testWritePaths (b :: rest)
    else
      testWritePaths (b :: rest)
  | _ => []

/-- Apply the test-mode placeholder writes: the `k`-th write stores
`"test_data_" ++ randSeq k` (modelling `random.randint`) at the normalized
path, and records the attempt with the raw path. -/
def applyWrites (fs : FS) (paths : List String) (randSeq : Nat → Nat) (k : Nat) :
    FS × List Effect :=
  match paths with
  | [] => (fs, [])
  | p :: rest =>
    let fs1 := fs.writeFile (pathStr p) ("test_data_" ++ toString (randSeq k))
    let r := applyWrites fs1 rest randSeq (k + 1)
    (r.1, .fileWrite p :: r.2)

/-- The full command vector built at line 46:
`[self.easyquantis_path, "-u", str(self.usb_device_index)] + args`. -/
def cmdOf (g : Generator) (args : List String) : List String :=
  g.easyquantisPath :: "-u" :: toString g.usbDeviceIndex :: args

/-- The `QuantisNotFoundError` message (line 51). -/
def notFoundMsg (g : Generator) : String :=
  "easyquantis executable not found: " ++ g.easyquantisPath

/-- The `QuantisExecutionError` message (line 54):
`f"Command failed: {' '.join(cmd)}\nError: {result.stderr}"`. -/
def execMsg (g : Generator) (args : List String) (stderr : String) : String :=
  "Command failed: " ++ joinSep " " (cmdOf g args) ++ "\nError: " ++ stderr

/-- `QuantisGenerator._execute_command(args)`.  `proc` is the environment's
outcome for the (single) `subprocess.run` call; `randSeq` feeds the
test-mode `random.randint` calls. -/
def executeCommand (g : Generator) (fs : FS) (args : List String)
    (proc : ProcOutcome) (randSeq : Nat → Nat) :
    Option QError × FS × List Effect :=
  if g.testMode then
    -- In test mode, create dummy output files
    let r := applyWrites fs (testWritePaths args) randSeq 0
    (none, r.1, r.2)
  else
    match proc with
    | .spawnFail =>
      (some (.notFound (notFoundMsg g)), fs, [.spawn (cmdOf g args)])
    | .finished rc stderr =>
      if rc ≠ 0 then
        (some (.execution (execMsg g args stderr)), fs, [.spawn (cmdOf g args)])
      else
        (none, fs, [.spawn (cmdOf g args)])

/-! ### Public generation operations -/

/-- `QuantisGenerator.generate_binary(count, output_path)`. -/
def generate_binary (g : Generator) (fs : FS) (count : Int) (output_path : String)
    (proc : ProcOutcome) (randSeq : Nat → Nat) :
    Option QError × FS × List Effect :=
  match validateInputs fs count output_path with
  | (some e, fs1, effs) => (some e, fs1, effs)
  | (none, fs1, effs) =>
    let args := ["-b", output_path, "-n", toString count]
    let r := executeCommand g fs1 args proc randSeq
    (r.1, r.2.1, effs ++ r.2.2)

/-- The Python code for integers and floats is duck-typed over the numeric
values: it only compares them with `>=` and renders them with `str`.  We
embed both over a linearly ordered type with a `ToString` instance. -/
def minmaxBad {α : Type} [LinearOrder α] (minVal maxVal : Option α) : Bool :=
  match minVal, maxVal with
  | some a, some b => decide (a ≥ b)
  | _, _ => false

/-- The optional `args.extend([flag, str(v)])` of lines 86-89. -/
def optPair (flag : String) {α : Type} [ToString α] : Option α → List String
  | some v => [flag, toString v]
  | none => []

/-- The optional `args.extend(["-s", separator])` of lines 90-91 (the
separator is passed through verbatim, not via `str`). -/
def sepPair : Option String → List String
  | some s => ["-s", s]
  | none => []

/-- The argument list built by `generate_integers` (lines 84-91). -/
def integersArgs {α : Type} [ToString α] (output_path : String) (count : Int)
    (minVal maxVal : Option α) (separator : Option String) : List String :=
  ["-i", output_path, "-n", toString count]
    ++ optPair "--min" minVal ++ optPair "--max" maxVal ++ sepPair separator

/-- The argument list built by `generate_floats` (lines 112-119). -/
def floatsArgs {α : Type} [ToString α] (output_path : String) (count : Int)
    (minVal maxVal : Option α) (separator : Option String) : List String :=
  ["-f", output_path, "-n", toString count]
    ++ optPair "--min" minVal ++ optPair "--max" maxVal ++ sepPair separator

/-- `QuantisGenerator.generate_integers(count, output_path, min_val, max_val,
separator)`. -/
def generate_integers {α : Type} [LinearOrder α] [ToString α] (g : Generator)
    (fs : FS) (count : Int) (output_path : String)
    (minVal maxVal : Option α) (separator : Option String)
    (proc : ProcOutcome) (randSeq : Nat → Nat) :
    Option QError × FS × List Effect :=
  match validateInputs fs count output_path with
  | (some e, fs1, effs) => (some e, fs1, effs)
  | (none, fs1, effs) =>
    if minmaxBad minVal maxVal then
      (some (.validation "Minimum value must be less than maximum value"), fs1, effs)
    else
      let r := executeCommand g fs1 (integersArgs output_path count minVal maxVal separator)
        proc randSeq
      (r.1, r.2.1, effs ++ r.2.2)

/-- `QuantisGenerator.generate_floats(count, output_path, min_val, max_val,
separator)`. -/
def generate_floats {α : Type} [LinearOrder α] [ToString α] (g : Generator)
    (fs : FS) (count : Int) (output_path : String)
    (minVal maxVal : Option α) (separator : Option String)
    (proc : ProcOutcome) (randSeq : Nat → Nat) :
    Option QError × FS × List Effect :=
  match validateInputs fs count output_path with
  | (some e, fs1, effs) => (some e, fs1, effs)
  | (none, fs1, effs) =>
    if minmaxBad minVal maxVal then
      (some (.validation "Minimum value must be less than maximum value"), fs1, effs)
    else
      let r := executeCommand g fs1 (floatsArgs output_path count minVal maxVal separator)
        proc randSeq
      (r.1, r.2.1, effs ++ r.2.2)

/-- Specification-side definition for the refinement claim C8, following the
spec sentence "`generate_floats(...)` — same contract as integers, for
floating-point values": one shared numeric-generation pipeline, parametrized
by the kind flag that heads the argument list. -/
def genNumericSpec (kindFlag : String) {α : Type} [LinearOrder α] [ToString α]
    (g : Generator) (fs : FS) (count : Int) (output_path : String)
    (minVal maxVal : Option α) (separator : Option String)
    (proc : ProcOutcome) (rs : Nat → Nat) : Option QError × FS × List Effect :=
  match validateInputs fs count output_path with
  | (some e, fs1, effs) => (some e, fs1, effs)
  | (none, fs1, effs) =>
    if minmaxBad minVal maxVal then
      (some (.validation "Minimum value must be less than maximum value"), fs1, effs)
    else
      let r := executeCommand g fs1
        ([kindFlag, output_path, "-n", toString count]
          ++ optPair "--min" minVal ++ optPair "--max" maxVal ++ sepPair separator)
        proc rs
      (r.1, r.2.1, effs ++ r.2.2)

/-- The discard destination picked by `is_ready` (line 135):
`"/dev/null" if os.path.exists("/dev/null") else "nul"`. -/
def nullPathOf (fs : FS) : String :=
  if fs.pathExists "/dev/null" then "/dev/null" else "nul"

/-- `QuantisGenerator.is_ready()`.  Returns `Except` because errors other
than `QuantisNotFoundError`/`QuantisExecutionError` propagate out of the
`try` block uncaught. -/
def is_ready (g : Generator) (fs : FS) (proc : ProcOutcome) (randSeq : Nat → Nat) :
    Except QError Bool × FS × List Effect :=
  if g.testMode then
    (.ok true, fs, [])
  else
    -- Try generating 1 byte to /dev/null (or equivalent)
    match generate_binary g fs 1 (nullPathOf fs) proc randSeq with
    | (some (.notFound _), fs1, effs) => (.ok false, fs1, effs)
    | (some (.execution _), fs1, effs) => (.ok false, fs1, effs)
    | (some e, fs1, effs) => (.error e, fs1, effs)
    | (none, fs1, effs) => (.ok true, fs1, effs)

/-! ### Substring containment (for claims about error-message content) -/

/-- `t` is a prefix of `s` (on character lists). -/
def charsPref : List Char → List Char → Bool
  | [], _ => true
  | _ :: _, [] => false
  | a :: t1, b :: t2 => a == b && charsPref t1 t2

/-- `t` occurs contiguously somewhere in `s`. -/
def charsIn (t : List Char) : List Char → Bool
  | [] => charsPref t []
  | c :: rest => charsPref t (c :: rest) || charsIn t rest

/-- `sub` occurs as a contiguous substring of `s`. -/
def strHas (s sub : String) : Bool := charsIn sub.data s.data

/-! ### Concrete fixtures used by witnesses and counterexamples -/

/-- `QuantisGenerator()` with defaults (device 0, executable `"easyquantis"`,
normal mode). -/
def gen0 : Generator := ⟨0, "easyquantis", false⟩

/-- `QuantisGenerator(test_mode=True)`. -/
def genT : Generator := ⟨0, "easyquantis", true⟩

/-- A filesystem with a single (writable) directory `/x` and no files. -/
def fsX : FS :=
  ⟨fun _ => none, fun q => q == "/x", fun _ => false, fun _ => false⟩

/-- Like `fsX`, but unlinking `/x/.write_test` fails (the marker can be
created but not removed). -/
def fsY : FS :=
  ⟨fun _ => none, fun q => q == "/x", fun _ => false, fun q => q == "/x/.write_test"⟩

/-- A fixed stream for `random.randint`. -/
def rand0 : Nat → Nat := fun _ => 0

/-- A process run that exits 0. -/
def procOk : ProcOutcome := .finished 0 ""


theorem charsPref_self_append (t r : List Char) : charsPref t (t ++ r) = true := by
  induction t with
  | nil => rfl
  | cons a t ih => simp [charsPref, ih]

theorem charsIn_of_pref {t s : List Char} (h : charsPref t s = true) :
    charsIn t s = true := by
  cases s <;> simp [charsIn, h]

theorem charsIn_append_left (a : List Char) {t s : List Char}
    (h : charsIn t s = true) : charsIn t (a ++ s) = true := by
  induction a with
  | nil => simpa using h
  | cons c a ih => simp [charsIn, ih]

theorem strHas_append_right (a t : String) : strHas (a ++ t) t = true := by
  have h1 : charsIn t.data t.data = true :=
    charsIn_of_pref (by simpa using charsPref_self_append t.data [])
  simpa [strHas, String.data_append] using charsIn_append_left a.data h1

theorem strHas_of_data {s t : String} (a b : List Char)
    (h : s.data = a ++ (t.data ++ b)) : strHas s t = true := by
  unfold strHas
  rw [h]
  exact charsIn_append_left a (charsIn_of_pref (charsPref_self_append _ _))

theorem strHas_append_middle (a t b : String) : strHas (a ++ t ++ b) t = true := by
  have h1 : charsIn t.data (t.data ++ b.data) = true :=
    charsIn_of_pref (charsPref_self_append t.data b.data)
  have h2 : charsIn t.data (a.data ++ (t.data ++ b.data)) = true :=
    charsIn_append_left a.data h1
  simpa [strHas, String.data_append, List.append_assoc] using h2

/-! ### Shared helper lemmas -/

theorem applyWrites_effects (paths : List String) :
    ∀ (fs : FS) (rs : Nat → Nat) (k : Nat),
      (applyWrites fs paths rs k).2 = paths.map Effect.fileWrite := by
  induction paths with
  | nil => intro fs rs k; rfl
  | cons p rest ih => intro fs rs k; simp [applyWrites, ih]

/-- A spawn effect never appears in the validation trace. -/
theorem validateInputs_no_spawn (fs : FS) (count : Int) (output_path : String)
    (cmd : List String) :
    Effect.spawn cmd ∉ (validateInputs fs count output_path).2.2 := by
  unfold validateInputs
  repeat' split
  all_goals simp

/-- When validation reaches the probe and both probe operations succeed,
`_validate_inputs` succeeds, creating and then removing the marker. -/
theorem validateInputs_ok {fs : FS} {count : Int} {output_path : String}
    (hc : 0 < count)
    (hs : isNullSentinel output_path = false)
    (hd : fs.isDir (pathStr output_path) = false)
    (hp : fs.isDir (parentStr output_path) = true)
    (ht : fs.touchFails (markerStr output_path) = false)
    (hu : fs.unlinkFails (markerStr output_path) = false) :
    validateInputs fs count output_path =
      (none, (fs.touchFile (markerStr output_path)).removeFile (markerStr output_path),
        [.touch (markerStr output_path), .unlink (markerStr output_path)]) := by
  have hc' : ¬ count ≤ 0 := by omega
  simp [validateInputs, hc', hs, hd, hp, ht, FS.pathExists, FS.isDir, FS.touchFile] at *
  simp [FS.touchFile, hu, hd, hp, ht]

/-- Any spawn effect of `_execute_command` carries exactly the command vector
of line 46. -/
theorem executeCommand_spawn_eq {g : Generator} {fs : FS} {args : List String}
    {proc : ProcOutcome} {rs : Nat → Nat} {cmd : List String}
    (h : Effect.spawn cmd ∈ (executeCommand g fs args proc rs).2.2) :
    cmd = cmdOf g args := by
  unfold executeCommand at h
  split at h
  · rw [applyWrites_effects] at h
    simp [List.mem_map] at h
  · split at h
    · simpa using h
    · split at h <;> simpa using h

/-! ## Claims -/

/-- **C1** (confirmed): argument construction is deterministic and
order-preserving.  Every spawned invocation vector of `generate_integers` is
exactly `[executable, "-u", device, "-i", path, "-n", count]` followed by the
optional `--min`/`--max`/`-s` pairs in that fixed order (and similarly for
`generate_binary` without the optional pairs); the two concrete calls of the
claim produce exactly the stated vectors. -/
theorem c1_argument_construction :
    (∀ (g : Generator) (fs : FS) (count : Int) (path : String)
        (mn mx : Option Int) (sep : Option String) (proc : ProcOutcome)
        (rs : Nat → Nat) (cmd : List String),
        Effect.spawn cmd ∈ (generate_integers g fs count path mn mx sep proc rs).2.2 →
        cmd = [g.easyquantisPath, "-u", toString g.usbDeviceIndex, "-i", path,
                "-n", toString count]
          ++ optPair "--min" mn ++ optPair "--max" mx ++ sepPair sep)
    ∧ (∀ (g : Generator) (fs : FS) (count : Int) (path : String)
        (proc : ProcOutcome) (rs : Nat → Nat) (cmd : List String),
        Effect.spawn cmd ∈ (generate_binary g fs count path proc rs).2.2 →
        cmd = [g.easyquantisPath, "-u", toString g.usbDeviceIndex, "-b", path,
                "-n", toString count])
    ∧ (generate_integers gen0 fsX 100 "/x/ints.txt" (some (1 : Int)) (some 6)
          (some ",") procOk rand0).2.2
        = [.touch "/x/.write_test", .unlink "/x/.write_test",
           .spawn ["easyquantis", "-u", "0", "-i", "/x/ints.txt", "-n", "100",
                   "--min", "1", "--max", "6", "-s", ","]]
    ∧ (generate_binary gen0 fsX 1024 "/x/out.bin" procOk rand0).2.2
        = [.touch "/x/.write_test", .unlink "/x/.write_test",
           .spawn ["easyquantis", "-u", "0", "-b", "/x/out.bin", "-n", "1024"]] := by
  refine ⟨?_, ?_, by decide, by decide⟩
  · intro g fs count path mn mx sep proc rs cmd h
    unfold generate_integers at h
    rcases hv : validateInputs fs count path with ⟨o, fs1, effs⟩
    have hnospawn := validateInputs_no_spawn fs count path cmd
    rw [hv] at h hnospawn
    simp only at hnospawn
    cases o with
    | some e => exact absurd h hnospawn
    | none =>
      simp only at h
      split at h
      · exact absurd h hnospawn
      · rcases List.mem_append.mp h with h1 | h2
        · exact absurd h1 hnospawn
        · rw [executeCommand_spawn_eq h2]
          simp [cmdOf, integersArgs, List.append_assoc]
  · intro g fs count path proc rs cmd h
    unfold generate_binary at h
    rcases hv : validateInputs fs count path with ⟨o, fs1, effs⟩
    have hnospawn := validateInputs_no_spawn fs count path cmd
    rw [hv] at h hnospawn
    simp only at hnospawn
    cases o with
    | some e => exact absurd h hnospawn
    | none =>
      simp only at h
      rcases List.mem_append.mp h with h1 | h2
      · exact absurd h1 hnospawn
      · rw [executeCommand_spawn_eq h2]
        simp [cmdOf]

/-- Witness for C1: the concrete integer-generation call of the claim, with
its spawn-membership hypothesis discharged by evaluation. -/
theorem c1_argument_construction_witness :
    (Effect.spawn ["easyquantis", "-u", "0", "-i", "/x/ints.txt", "-n", "100",
        "--min", "1", "--max", "6", "-s", ","]
      ∈ (generate_integers gen0 fsX 100 "/x/ints.txt" (some (1 : Int)) (some 6)
          (some ",") procOk rand0).2.2)
    ∧ ["easyquantis", "-u", "0", "-i", "/x/ints.txt", "-n", "100",
        "--min", "1", "--max", "6", "-s", ","]
      = [gen0.easyquantisPath, "-u", toString gen0.usbDeviceIndex, "-i",
          "/x/ints.txt", "-n", toString (100 : Int)]
        ++ optPair "--min" (some (1 : Int)) ++ optPair "--max" (some (6 : Int))
        ++ sepPair (some ",") :=
  ⟨by decide,
    c1_argument_construction.1 gen0 fsX 100 "/x/ints.txt" (some 1) (some 6)
      (some ",") procOk rand0 _ (by decide)⟩

/-- **C2** (confirmed): for every `count <= 0`, each of the three generation
operations raises `ValidationError("Count must be positive")`, the
filesystem is untouched, and the effect trace is empty — so no process is
spawned and no file (placeholder or probe marker) is created or touched. -/
theorem c2_nonpositive_count :
    ∀ (g : Generator) (fs : FS) (count : Int) (path : String)
      (proc : ProcOutcome) (rs : Nat → Nat),
      count ≤ 0 →
      generate_binary g fs count path proc rs
          = (some (.validation "Count must be positive"), fs, [])
      ∧ (∀ {α : Type} [LinearOrder α] [ToString α] (mn mx : Option α)
          (sep : Option String),
          generate_integers g fs count path mn mx sep proc rs
            = (some (.validation "Count must be positive"), fs, [])
          ∧ generate_floats g fs count path mn mx sep proc rs
            = (some (.validation "Count must be positive"), fs, [])) := by
  intro g fs count path proc rs h
  have hv : validateInputs fs count path
      = (some (.validation "Count must be positive"), fs, []) := by
    simp [validateInputs, if_pos h]
  refine ⟨?_, ?_⟩
  · simp [generate_binary, hv]
  · intro α _ _ mn mx sep
    constructor
    · simp [generate_integers, hv]
    · simp [generate_floats, hv]

/-- Witness for C2 at `count = 0`. -/
theorem c2_nonpositive_count_witness :
    ((0 : Int) ≤ 0)
    ∧ generate_binary gen0 fsX 0 "/x/a.txt" procOk rand0
        = (some (.validation "Count must be positive"), fsX, []) :=
  ⟨by decide,
    (c2_nonpositive_count gen0 fsX 0 "/x/a.txt" procOk rand0 (by decide)).1⟩

/-- **C3** (confirmed): in normal (non-test) mode the execution primitive
classifies process outcomes into exactly two failure kinds: a failed spawn
raises `NotFoundError` whose message contains the configured executable
path; a non-zero exit raises `ExecutionError` whose message contains both
the joined command line and the captured stderr text; and the result is
success exactly when the process exits 0. -/
theorem c3_execution_classification :
    ∀ (g : Generator) (fs : FS) (args : List String) (rs : Nat → Nat),
      g.testMode = false →
      (executeCommand g fs args .spawnFail rs
          = (some (.notFound (notFoundMsg g)), fs, [.spawn (cmdOf g args)])
        ∧ strHas (notFoundMsg g) g.easyquantisPath = true)
      ∧ (∀ (rc : Int) (stderr : String), rc ≠ 0 →
          executeCommand g fs args (.finished rc stderr) rs
            = (some (.execution (execMsg g args stderr)), fs, [.spawn (cmdOf g args)])
          ∧ strHas (execMsg g args stderr) (joinSep " " (cmdOf g args)) = true
          ∧ strHas (execMsg g args stderr) stderr = true)
      ∧ (∀ stderr : String, executeCommand g fs args (.finished 0 stderr) rs
          = (none, fs, [.spawn (cmdOf g args)]))
      ∧ (∀ proc : ProcOutcome, (executeCommand g fs args proc rs).1 = none
          ↔ ∃ stderr, proc = .finished 0 stderr) := by
  intro g fs args rs h
  refine ⟨⟨by simp [executeCommand, h], ?_⟩, ?_, ?_, ?_⟩
  · exact strHas_append_right _ _
  · intro rc stderr hrc
    refine ⟨by simp [executeCommand, h, hrc], ?_, ?_⟩
    · exact strHas_of_data "Command failed: ".data
        ("\nError: " ++ stderr).data
        (by simp [execMsg, String.data_append, List.append_assoc])
    · exact strHas_of_data
        ("Command failed: " ++ joinSep " " (cmdOf g args) ++ "\nError: ").data
        [] (by simp [execMsg, String.data_append, List.append_assoc])
  · intro stderr
    simp [executeCommand, h]
  · intro proc
    cases proc with
    | spawnFail => simp [executeCommand, h]
    | finished rc stderr =>
      by_cases hrc : rc = 0
      · subst hrc; simp [executeCommand, h]
      · simp [executeCommand, h, hrc]

/-- Witness for C3 with the default generator and a process exiting 1. -/
theorem c3_execution_classification_witness :
    (gen0.testMode = false ∧ (1 : Int) ≠ 0)
    ∧ executeCommand gen0 fsX ["-b", "/x/out.bin", "-n", "8"]
        (.finished 1 "boom") rand0
      = (some (.execution (execMsg gen0 ["-b", "/x/out.bin", "-n", "8"] "boom")),
          fsX, [.spawn (cmdOf gen0 ["-b", "/x/out.bin", "-n", "8"])])
    ∧ strHas (execMsg gen0 ["-b", "/x/out.bin", "-n", "8"] "boom")
        (joinSep " " (cmdOf gen0 ["-b", "/x/out.bin", "-n", "8"])) = true
    ∧ strHas (execMsg gen0 ["-b", "/x/out.bin", "-n", "8"] "boom") "boom" = true :=
  ⟨⟨by decide, by decide⟩,
    (c3_execution_classification gen0 fsX ["-b", "/x/out.bin", "-n", "8"] rand0
      (by decide)).2.1 1 "boom" (by decide)⟩

/-- A raw-string sentinel is also a normalized-path sentinel. -/
theorem isNullSentinel_of_raw {s : String} (h : isRawNullSentinel s = true) :
    isNullSentinel s = true := by
  simp only [isRawNullSentinel, Bool.or_eq_true, decide_eq_true_eq] at h
  rcases h with h | h <;> subst h <;> decide

/-- The discard destination of `is_ready` is always a validation sentinel. -/
theorem nullPathOf_sentinel (fs : FS) : isNullSentinel (nullPathOf fs) = true := by
  unfold nullPathOf
  split <;> decide

/-- **C4** counterexample: with `count = 0`, `min = 5 >= 3 = max`, the call
fails with the *count* ValidationError, whose message does not name the
ordering violation — refuting "regardless of whether count is valid". -/
theorem c4_counterexample :
    minmaxBad (some (5 : Int)) (some 3) = true
    ∧ (generate_integers gen0 fsX 0 "/x/a.txt" (some (5 : Int)) (some 3) none
        procOk rand0).1 = some (.validation "Count must be positive")
    ∧ strHas "Count must be positive" "must be less than" = false
    ∧ "Count must be positive" ≠ "Minimum value must be less than maximum value" := by
  decide

/-- **C4** (corrected): when both bounds are supplied with `min >= max` and
the count/path validation passes, `generate_integers` and `generate_floats`
fail with the ValidationError naming the ordering violation (and nothing is
executed); when `count <= 0`, the call instead fails with the count
ValidationError. -/
theorem c4_minmax_validation :
    ∀ {α : Type} [LinearOrder α] [ToString α] (g : Generator) (fs : FS)
      (count : Int) (path : String) (mn mx : α) (sep : Option String)
      (proc : ProcOutcome) (rs : Nat → Nat),
      mn ≥ mx →
      ((validateInputs fs count path).1 = none →
        generate_integers g fs count path (some mn) (some mx) sep proc rs
            = (some (.validation "Minimum value must be less than maximum value"),
               (validateInputs fs count path).2.1, (validateInputs fs count path).2.2)
        ∧ generate_floats g fs count path (some mn) (some mx) sep proc rs
            = (some (.validation "Minimum value must be less than maximum value"),
               (validateInputs fs count path).2.1, (validateInputs fs count path).2.2))
      ∧ (count ≤ 0 →
          (generate_integers g fs count path (some mn) (some mx) sep proc rs).1
              = some (.validation "Count must be positive")
          ∧ (generate_floats g fs count path (some mn) (some mx) sep proc rs).1
              = some (.validation "Count must be positive"))
      ∧ strHas "Minimum value must be less than maximum value"
          "must be less than maximum" = true := by
  intro α _ _ g fs count path mn mx sep proc rs h
  have hbad : minmaxBad (some mn) (some mx) = true := by
    simp [minmaxBad, h]
  refine ⟨?_, ?_, by decide⟩
  · intro hok
    rcases hv : validateInputs fs count path with ⟨o, fs1, effs⟩
    rw [hv] at hok
    simp only at hok
    subst hok
    constructor
    · simp [generate_integers, hv, hbad]
    · simp [generate_floats, hv, hbad]
  · intro hc
    have hv : validateInputs fs count path
        = (some (.validation "Count must be positive"), fs, []) := by
      simp [validateInputs, if_pos hc]
    constructor
    · simp [generate_integers, hv]
    · simp [generate_floats, hv]

/-- Witness for C4 (amended): valid count and path, `min = 5 >= 3 = max`. -/
theorem c4_minmax_validation_witness :
    ((5 : Int) ≥ 3 ∧ (validateInputs fsX 10 "/x/a.txt").1 = none)
    ∧ generate_integers gen0 fsX 10 "/x/a.txt" (some (5 : Int)) (some 3) none
        procOk rand0
      = (some (.validation "Minimum value must be less than maximum value"),
         (validateInputs fsX 10 "/x/a.txt").2.1,
         (validateInputs fsX 10 "/x/a.txt").2.2) :=
  ⟨⟨by decide, by decide⟩,
    ((c4_minmax_validation gen0 fsX 10 "/x/a.txt" 5 3 none procOk rand0
      (by decide)).1 (by decide)).1⟩

/-- **C5** (confirmed): for non-sentinel output paths the validation checks
run in the fixed order directory-target, missing parent, non-directory
parent, unwritable parent — each raising the stated ValidationError with the
filesystem untouched and no effects; sentinel paths bypass all of them. -/
theorem c5_path_validation :
    ∀ (fs : FS) (count : Int) (path : String),
      0 < count →
      (isNullSentinel path = true →
        validateInputs fs count path = (none, fs, []))
      ∧ (isNullSentinel path = false →
          (fs.isDir (pathStr path) = true →
            validateInputs fs count path
              = (some (.validation ("Output path is a directory: " ++ path ++
                  ". Please specify a filename.")), fs, []))
          ∧ (fs.isDir (pathStr path) = false →
              fs.pathExists (parentStr path) = false →
              validateInputs fs count path
                = (some (.validation ("Directory does not exist: "
                    ++ parentStr path)), fs, []))
          ∧ (fs.isDir (pathStr path) = false →
              fs.pathExists (parentStr path) = true →
              fs.isDir (parentStr path) = false →
              validateInputs fs count path
                = (some (.validation ("Parent path is not a directory: "
                    ++ parentStr path)), fs, []))
          ∧ (fs.isDir (pathStr path) = false →
              fs.isDir (parentStr path) = true →
              fs.touchFails (markerStr path) = true →
              validateInputs fs count path
                = (some (.validation ("No write permission for directory: "
                    ++ parentStr path)), fs, []))) := by
  intro fs count path hc
  have hc' : ¬ count ≤ 0 := by omega
  constructor
  · intro hs
    simp [validateInputs, hc', hs]
  · intro hs
    refine ⟨?_, ?_, ?_, ?_⟩
    · intro hd
      simp [validateInputs, hc', hs, hd, FS.pathExists]
    · intro hd hpe
      simp [validateInputs, hc', hs, hd, hpe]
    · intro hd hpe hpd
      simp [validateInputs, hc', hs, hd, hpe, hpd]
    · intro hd hpd ht
      simp [validateInputs, hc', hs, hd, hpd, ht, FS.pathExists]

/-- Witness for C5: the missing-parent branch at a concrete path. -/
theorem c5_path_validation_witness :
    (0 < (7 : Int) ∧ isNullSentinel "/nope/file.bin" = false
      ∧ fsX.isDir (pathStr "/nope/file.bin") = false
      ∧ fsX.pathExists (parentStr "/nope/file.bin") = false)
    ∧ validateInputs fsX 7 "/nope/file.bin"
        = (some (.validation ("Directory does not exist: "
            ++ parentStr "/nope/file.bin")), fsX, []) :=
  ⟨⟨by decide, by decide, by decide, by decide⟩,
    ((c5_path_validation fsX 7 "/nope/file.bin" (by decide)).2
      (by decide)).2.1 (by decide) (by decide)⟩

/-- **C6** (confirmed): in test mode `is_ready` returns true with no process
interaction and no filesystem effect; outside test mode it performs exactly
one invocation — generate 1 byte to the discard destination — returning
false on a failed spawn (NotFoundError) or a non-zero exit (ExecutionError)
rather than raising, true on exit 0; and for every process outcome the
result is a returned boolean, never a propagated error. -/
theorem c6_is_ready :
    ∀ (g : Generator) (fs : FS) (rs : Nat → Nat),
      (g.testMode = true → ∀ proc : ProcOutcome,
        is_ready g fs proc rs = (.ok true, fs, []))
      ∧ (g.testMode = false →
          (is_ready g fs .spawnFail rs
            = (.ok false, fs,
                [.spawn (cmdOf g ["-b", nullPathOf fs, "-n", toString (1 : Int)])]))
          ∧ (∀ (rc : Int) (stderr : String), rc ≠ 0 →
              is_ready g fs (.finished rc stderr) rs
                = (.ok false, fs,
                    [.spawn (cmdOf g ["-b", nullPathOf fs, "-n", toString (1 : Int)])]))
          ∧ (∀ stderr : String, is_ready g fs (.finished 0 stderr) rs
                = (.ok true, fs,
                    [.spawn (cmdOf g ["-b", nullPathOf fs, "-n", toString (1 : Int)])]))
          ∧ isNullSentinel (nullPathOf fs) = true)
      ∧ (∀ (proc : ProcOutcome) (e : QError),
          (is_ready g fs proc rs).1 = .error e → False) := by
  intro g fs rs
  by_cases hT : g.testMode = true
  · refine ⟨fun _ proc => by simp [is_ready, hT], ?_, ?_⟩
    · intro h
      simp [hT] at h
    · intro proc e h
      simp [is_ready, hT] at h
  · have hT' : g.testMode = false := by
      cases h : g.testMode
      · rfl
      · exact absurd h hT
    have hv : validateInputs fs 1 (nullPathOf fs) = (none, fs, []) := by
      simp [validateInputs, nullPathOf_sentinel]
    refine ⟨?_, fun _ => ⟨?_, ?_, ?_, nullPathOf_sentinel fs⟩, ?_⟩
    · intro h
      simp [hT'] at h
    · simp [is_ready, hT', generate_binary, hv, executeCommand]
    · intro rc stderr hrc
      simp [is_ready, hT', generate_binary, hv, executeCommand, hrc]
    · intro stderr
      simp [is_ready, hT', generate_binary, hv, executeCommand]
    · intro proc e h
      cases proc with
      | spawnFail => simp [is_ready, hT', generate_binary, hv, executeCommand] at h
      | finished rc stderr =>
        by_cases hrc : rc = 0
        · subst hrc
          simp [is_ready, hT', generate_binary, hv, executeCommand] at h
        · simp [is_ready, hT', generate_binary, hv, executeCommand, hrc] at h

/-- Witness for C6: default generator, spawn failure, and the test-mode case. -/
theorem c6_is_ready_witness :
    (gen0.testMode = false ∧ genT.testMode = true)
    ∧ is_ready gen0 fsX .spawnFail rand0
        = (.ok false, fsX,
            [.spawn (cmdOf gen0 ["-b", nullPathOf fsX, "-n", toString (1 : Int)])])
    ∧ is_ready genT fsX .spawnFail rand0 = (.ok true, fsX, []) :=
  ⟨⟨by decide, by decide⟩,
    ((c6_is_ready gen0 fsX rand0).2.1 (by decide)).1,
    (c6_is_ready genT fsX rand0).1 (by decide) .spawnFail⟩

/-- **C7** counterexample: in a state where the marker can be created but not
removed (unlink fails), validation raises the write-permission
ValidationError and leaves the marker file `/x/.write_test` behind — the
cleanup is not guaranteed. -/
theorem c7_marker_counterexample :
    fsY.isFile "/x/.write_test" = false
    ∧ (validateInputs fsY 5 "/x/out.bin").1
        = some (.validation "No write permission for directory: /x")
    ∧ (validateInputs fsY 5 "/x/out.bin").2.1.isFile "/x/.write_test" = true
    ∧ (validateInputs fsY 5 "/x/out.bin").2.2 = [.touch "/x/.write_test"] := by
  decide

/-- **C7** (corrected): when validation reaches the write probe, the marker
is created and then removed when both probe operations succeed; when
creation fails (e.g. denied permission) nothing is created, so nothing is
left behind; but if removal fails after a successful creation, the
validation error is raised with the marker file left in place. -/
theorem c7_marker_lifecycle :
    ∀ (fs : FS) (count : Int) (path : String),
      0 < count →
      isNullSentinel path = false →
      fs.isDir (pathStr path) = false →
      fs.isDir (parentStr path) = true →
      (fs.touchFails (markerStr path) = true →
        validateInputs fs count path
          = (some (.validation ("No write permission for directory: "
              ++ parentStr path)), fs, []))
      ∧ (fs.touchFails (markerStr path) = false →
          fs.unlinkFails (markerStr path) = false →
          validateInputs fs count path
            = (none, (fs.touchFile (markerStr path)).removeFile (markerStr path),
                [.touch (markerStr path), .unlink (markerStr path)])
          ∧ ((fs.touchFile (markerStr path)).removeFile (markerStr path)).isFile
              (markerStr path) = false)
      ∧ (fs.touchFails (markerStr path) = false →
          fs.unlinkFails (markerStr path) = true →
          (validateInputs fs count path).1
            = some (.validation ("No write permission for directory: "
                ++ parentStr path))
          ∧ (validateInputs fs count path).2.1.isFile (markerStr path) = true) := by
  intro fs count path hc hs hd hp
  have hc' : ¬ count ≤ 0 := by omega
  refine ⟨?_, ?_, ?_⟩
  · intro ht
    simp [validateInputs, hc', hs, hd, hp, ht, FS.pathExists]
  · intro ht hu
    refine ⟨validateInputs_ok hc hs hd hp ht hu, ?_⟩
    simp [FS.isFile, FS.removeFile]
  · intro ht hu
    constructor
    · simp [validateInputs, hc', hs, hd, hp, ht, hu, FS.pathExists, FS.touchFile]
    · simp [validateInputs, hc', hs, hd, hp, ht, hu, FS.pathExists,
        FS.isFile, FS.touchFile]

/-- Witness for C7 (amended): the success branch on `fsX`, where the marker
is created and removed and no marker remains. -/
theorem c7_marker_lifecycle_witness :
    (0 < (5 : Int) ∧ isNullSentinel "/x/out.bin" = false
      ∧ fsX.isDir (pathStr "/x/out.bin") = false
      ∧ fsX.isDir (parentStr "/x/out.bin") = true
      ∧ fsX.touchFails (markerStr "/x/out.bin") = false
      ∧ fsX.unlinkFails (markerStr "/x/out.bin") = false)
    ∧ (validateInputs fsX 5 "/x/out.bin"
        = (none,
            (fsX.touchFile (markerStr "/x/out.bin")).removeFile (markerStr "/x/out.bin"),
            [.touch (markerStr "/x/out.bin"), .unlink (markerStr "/x/out.bin")])
      ∧ ((fsX.touchFile (markerStr "/x/out.bin")).removeFile
          (markerStr "/x/out.bin")).isFile (markerStr "/x/out.bin") = false) :=
  ⟨⟨by decide, by decide, by decide, by decide, by decide, by decide⟩,
    ((c7_marker_lifecycle fsX 5 "/x/out.bin" (by decide) (by decide) (by decide)
      (by decide)).2.1 (by decide) (by decide))⟩

/-- **C8** (confirmed): `generate_floats` has the same contract as
`generate_integers` on identical inputs: both are instances of one shared
pipeline (`genNumericSpec`) differing only in the kind flag, and the two
argument lists are identical except that `"-f"` replaces `"-i"` at the
head. -/
theorem c8_floats_same_contract :
    ∀ {α : Type} [LinearOrder α] [ToString α] (g : Generator) (fs : FS)
      (count : Int) (path : String) (mn mx : Option α) (sep : Option String)
      (proc : ProcOutcome) (rs : Nat → Nat),
      generate_integers g fs count path mn mx sep proc rs
          = genNumericSpec "-i" g fs count path mn mx sep proc rs
      ∧ generate_floats g fs count path mn mx sep proc rs
          = genNumericSpec "-f" g fs count path mn mx sep proc rs
      ∧ integersArgs path count mn mx sep
          = "-i" :: (floatsArgs path count mn mx sep).tail
      ∧ floatsArgs path count mn mx sep
          = "-f" :: (integersArgs path count mn mx sep).tail := by
  intro α _ _ g fs count path mn mx sep proc rs
  exact ⟨rfl, rfl, rfl, rfl⟩

/-- A test-mode `generate_binary` run on a valid non-sentinel path: probe
the marker, then write the placeholder. -/
theorem generate_binary_test {g : Generator} {fs : FS} {count : Int}
    {path : String} (proc : ProcOutcome) (rs : Nat → Nat)
    (hT : g.testMode = true) (hc : 0 < count)
    (hs : isNullSentinel path = false)
    (hb : path ≠ "-b") (hi : path ≠ "-i") (hf : path ≠ "-f")
    (hd : fs.isDir (pathStr path) = false)
    (hp : fs.isDir (parentStr path) = true)
    (ht : fs.touchFails (markerStr path) = false)
    (hu : fs.unlinkFails (markerStr path) = false) :
    generate_binary g fs count path proc rs
      = (none,
         ((fs.touchFile (markerStr path)).removeFile (markerStr path)).writeFile
           (pathStr path) ("test_data_" ++ toString (rs 0)),
         [.touch (markerStr path), .unlink (markerStr path), .fileWrite path]) := by
  have hraw : isRawNullSentinel path = false := by
    cases h : isRawNullSentinel path
    · rfl
    · rw [isNullSentinel_of_raw h] at hs
      cases hs
  have hv := validateInputs_ok hc hs hd hp ht hu
  have hw : testWritePaths ["-b", path, "-n", toString count] = [path] := by
    simp [testWritePaths, hraw, hb, hi, hf]
  simp [generate_binary, hv, executeCommand, hT, hw, applyWrites]

/-- **C9** (confirmed): in test mode, two successive `generate_binary` calls
with the same valid arguments both succeed; the file content after the
second call is the second call's placeholder (the write overwrites), and it
is the same content the second call would have produced on the initial
state — independent of the first call's side effects. -/
theorem c9_test_mode_repeat :
    ∀ (g : Generator) (fs : FS) (count : Int) (path : String)
      (proc : ProcOutcome) (rs1 rs2 : Nat → Nat),
      g.testMode = true →
      0 < count →
      isNullSentinel path = false →
      path ≠ "-b" → path ≠ "-i" → path ≠ "-f" →
      fs.isDir (pathStr path) = false →
      fs.isDir (parentStr path) = true →
      fs.touchFails (markerStr path) = false →
      fs.unlinkFails (markerStr path) = false →
      (generate_binary g fs count path proc rs1).1 = none
      ∧ (generate_binary g (generate_binary g fs count path proc rs1).2.1
            count path proc rs2).1 = none
      ∧ (generate_binary g (generate_binary g fs count path proc rs1).2.1
            count path proc rs2).2.1.files (pathStr path)
          = some ("test_data_" ++ toString (rs2 0))
      ∧ (generate_binary g fs count path proc rs2).2.1.files (pathStr path)
          = some ("test_data_" ++ toString (rs2 0)) := by
  intro g fs count path proc rs1 rs2 hT hc hs hb hi hf hd hp ht hu
  have h1 := generate_binary_test proc rs1 hT hc hs hb hi hf hd hp ht hu
  have h3 := generate_binary_test proc rs2 hT hc hs hb hi hf hd hp ht hu
  set fs1 := ((fs.touchFile (markerStr path)).removeFile (markerStr path)).writeFile
      (pathStr path) ("test_data_" ++ toString (rs1 0)) with hfs1
  have hd1 : fs1.isDir (pathStr path) = false := hd
  have hp1 : fs1.isDir (parentStr path) = true := hp
  have ht1 : fs1.touchFails (markerStr path) = false := ht
  have hu1 : fs1.unlinkFails (markerStr path) = false := hu
  have h2 := generate_binary_test proc rs2 hT hc hs hb hi hf hd1 hp1 ht1 hu1
  refine ⟨by simp [h1], by simp [h1, h2], ?_, ?_⟩
  · simp [h1, h2, FS.writeFile]
  · simp [h3, FS.writeFile]

/-- Witness for C9 on the concrete test-mode generator and `/x/out.bin`. -/
theorem c9_test_mode_repeat_witness :
    (genT.testMode = true ∧ 0 < (5 : Int)
      ∧ isNullSentinel "/x/out.bin" = false
      ∧ "/x/out.bin" ≠ "-b" ∧ "/x/out.bin" ≠ "-i" ∧ "/x/out.bin" ≠ "-f"
      ∧ fsX.isDir (pathStr "/x/out.bin") = false
      ∧ fsX.isDir (parentStr "/x/out.bin") = true
      ∧ fsX.touchFails (markerStr "/x/out.bin") = false
      ∧ fsX.unlinkFails (markerStr "/x/out.bin") = false)
    ∧ (generate_binary genT fsX 5 "/x/out.bin" procOk rand0).1 = none
    ∧ (generate_binary genT (generate_binary genT fsX 5 "/x/out.bin" procOk rand0).2.1
          5 "/x/out.bin" procOk rand0).1 = none
    ∧ (generate_binary genT (generate_binary genT fsX 5 "/x/out.bin" procOk rand0).2.1
          5 "/x/out.bin" procOk rand0).2.1.files (pathStr "/x/out.bin")
        = some ("test_data_" ++ toString (rand0 0))
    ∧ (generate_binary genT fsX 5 "/x/out.bin" procOk rand0).2.1.files
          (pathStr "/x/out.bin")
        = some ("test_data_" ++ toString (rand0 0)) :=
  ⟨⟨by decide, by decide, by decide, by decide, by decide, by decide, by decide,
    by decide, by decide, by decide⟩,
    c9_test_mode_repeat genT fsX 5 "/x/out.bin" procOk rand0 rand0 (by decide)
      (by decide) (by decide) (by decide) (by decide) (by decide) (by decide)
      (by decide) (by decide) (by decide)⟩

/-- **C10** counterexample: `"/dev/null/"` normalizes to `"/dev/null"`, so it
bypasses all path validation — yet in test mode the placeholder skip
compares the *raw* string, so a placeholder write is still attempted for it
(while the plain `"/dev/null"` is skipped). -/
theorem c10_counterexample :
    isNullSentinel "/dev/null/" = true
    ∧ (validateInputs fsX 1 "/dev/null/").1 = none
    ∧ (validateInputs fsX 1 "/dev/null/").2.2 = []
    ∧ (generate_binary genT fsX 1 "/dev/null/" procOk rand0).2.2
        = [.fileWrite "/dev/null/"]
    ∧ (generate_binary genT fsX 1 "/dev/null" procOk rand0).2.2 = [] := by
  decide

/-- **C10** (corrected): the validation-bypass sentinel set is exactly the
strings whose normalized (POSIX) path form is `"/dev/null"` or `"nul"`
(sentinels bypass validation entirely, for every filesystem and positive
count, and `"nul"` qualifies on POSIX too); but the test-mode placeholder
skip uses the raw string, so only literally `"/dev/null"`/`"nul"` avoid the
placeholder write, every raw sentinel also being a normalized sentinel. -/
theorem c10_sentinel_sets :
    ∀ (s : String),
      (isNullSentinel s = true ↔ (pathStr s = "/dev/null" ∨ pathStr s = "nul"))
      ∧ (∀ (fs : FS) (count : Int), 0 < count → isNullSentinel s = true →
          validateInputs fs count s = (none, fs, []))
      ∧ (∀ (count : Int), s ≠ "-b" → s ≠ "-i" → s ≠ "-f" →
          testWritePaths ["-b", s, "-n", toString count]
            = if isRawNullSentinel s = true then [] else [s])
      ∧ (isRawNullSentinel s = true → isNullSentinel s = true) := by
  intro s
  refine ⟨?_, ?_, ?_, fun h => isNullSentinel_of_raw h⟩
  · simp [isNullSentinel]
  · intro fs count hc hsent
    have hc' : ¬ count ≤ 0 := by omega
    simp [validateInputs, hc', hsent]
  · intro count hb hi hf
    cases hraw : isRawNullSentinel s
    · simp [testWritePaths, hraw, hb, hi, hf]
    · have : s = "/dev/null" ∨ s = "nul" := by
        simpa [isRawNullSentinel] using hraw
      rcases this with h | h <;> subst h <;> simp [testWritePaths, hraw]

/-- Witness for C10 (amended): the sentinel variant `"/dev/null/"` bypasses
validation; the raw path `"/x/out.bin"` is written in test mode. -/
theorem c10_sentinel_sets_witness :
    (0 < (1 : Int) ∧ isNullSentinel "/dev/null/" = true
      ∧ "/x/out.bin" ≠ "-b" ∧ "/x/out.bin" ≠ "-i" ∧ "/x/out.bin" ≠ "-f")
    ∧ validateInputs fsX 1 "/dev/null/" = (none, fsX, [])
    ∧ testWritePaths ["-b", "/x/out.bin", "-n", toString (9 : Int)]
        = if isRawNullSentinel "/x/out.bin" = true then [] else ["/x/out.bin"] :=
  ⟨⟨by decide, by decide, by decide, by decide, by decide⟩,
    (c10_sentinel_sets "/dev/null/").2.1 fsX 1 (by decide) (by decide),
    (c10_sentinel_sets "/x/out.bin").2.2.1 9 (by decide) (by decide) (by decide)⟩

end PySyQuantis
